import Mathlib

/-!
Shallow embedding of `src/main.py` of insightcivic/llminside: a FastAPI
item-management application with one table `items(id, name)`, five routes
(`GET /`, `POST /items/`, `GET /items/{id}`, `POST /items/{id}/delete`,
plus static mounting), Jinja2 template responses, and a module-level
bootstrap that reads `DATABASE_URL` from the environment.

The database session state is modelled as a list of rows plus the
autoincrement counter. Exceptions that the Python handlers can catch are
modelled explicitly (`Exc`), and each handler is embedded as a total
function that additionally receives the outcome of its fallible
operations (database call, template rendering), mirroring the
try/except structure of the source line by line.
-/

namespace LlmInside

/-- Row of the `items` table, `class Item` of main.py lines 40-46:
`id` integer primary key, `name` string. -/
structure Item where
  id : Nat
  name : String
deriving DecidableEq, Repr

/-- Database state seen through a session: the rows of the `items` table
and the autoincrement counter used for the next system-assigned primary
key (the storage layer assigns ids, never the application). -/
structure DBState where
  items : List Item
  nextId : Nat
deriving DecidableEq, Repr

/-- Python exception that can reach an except clause of a handler:
`SQLAlchemyError` (imported at main.py line 11) or any other `Exception`. -/
inductive Exc where
  | sqlalchemy (msg : String)
  | other (msg : String)
deriving DecidableEq, Repr

/-- `str(e)` on an exception, as interpolated into the error context. -/
def Exc.str : Exc → String
  | .sqlalchemy m => m
  | .other m => m

/-- Template context passed to `templates.TemplateResponse` (the `request`
key is omitted: it carries no data the templates compute with). -/
inductive Ctx where
  | items (xs : List Item)
  | item (it : Item)
  | error (msg : String)
deriving DecidableEq, Repr

/-- HTTP response produced by a handler: a rendered template with a status
code (`TemplateResponse`, default status 200) or a `RedirectResponse`. -/
inductive Response where
  | template (tmpl : String) (ctx : Ctx) (status : Nat)
  | redirect (url : String) (status : Nat)
deriving DecidableEq, Repr

/-- Status code carried by a response. -/
def Response.status : Response → Nat
  | .template _ _ st => st
  | .redirect _ st => st

/-- Outcome of running a handler body: a returned response, or an
exception that escaped every except clause of the handler. -/
inductive RunResult where
  | response (r : Response)
  | uncaught (e : Exc)
deriving DecidableEq, Repr

/-- Status code of a run outcome, `none` when nothing was returned. -/
def RunResult.statusOf : RunResult → Option Nat
  | .response r => some r.status
  | .uncaught _ => none

/-- `db.query(Item).all()`, main.py line 73. -/
def queryAll (s : DBState) : List Item :=
  s.items

/-- `db.query(Item).filter(Item.id == item_id).first()`, main.py
lines 96 and 113: the first row whose id matches, else `None`. -/
def queryFirst (s : DBState) (i : Nat) : Option Item :=
  s.items.find? (fun x => x.id == i)

/-- `Item(name=name); db.add(new_item); db.commit(); db.refresh(new_item)`,
main.py lines 83-86: the storage layer assigns the next id, the row is
persisted, and the refreshed row (with its id) is returned. -/
def insertItem (s : DBState) (name : String) : DBState × Item :=
  let it : Item := ⟨s.nextId, name⟩
  (⟨s.items ++ [it], s.nextId + 1⟩, it)

/-- `db.delete(item); db.commit()`, main.py lines 116-117: SQL DELETE by
primary key removes every row carrying that id (at most one under the
primary-key constraint). -/
def deleteRow (s : DBState) (it : Item) : DBState :=
  ⟨s.items.filter (fun x => x.id != it.id), s.nextId⟩

/-- Error page of `read_item` and `delete_item` except clauses, main.py
lines 103-108 and 120-125: `SQLAlchemyError` renders "Database error
occurred", any other `Exception` renders "An unexpected error occurred",
both with `status_code=500`. -/
def dbErrorResponse : Exc → Response
  | .sqlalchemy _ => .template "error.html" (.error "Database error occurred") 500
  | .other _ => .template "error.html" (.error "An unexpected error occurred") 500

/-- Handler of `GET /` (`root`, main.py lines 70-78). `excQuery` is the
exception raised by `db.query(Item).all()` if it fails, `excRender` the
exception raised while building the success `TemplateResponse`; both are
caught by the single `except Exception` clause, which renders `error.html`
with `str(e)` and no `status_code` argument, hence the default 200. -/
def rootRun (s : DBState) (excQuery excRender : Option Exc) : RunResult :=
  match excQuery with
  | some e => .response (.template "error.html" (.error e.str) 200)
  | none =>
    match excRender with
    | some e => .response (.template "error.html" (.error e.str) 200)
    | none => .response (.template "index.html" (.items (queryAll s)) 200)

/-- `root` on the success path (no exception injected). -/
def root (s : DBState) : RunResult :=
  rootRun s none none

/-- Handler of `POST /items/` (`create_item`, main.py lines 80-91).
`excWrite` is an exception raised by the add/commit/refresh sequence (the
failed transaction leaves no partial record), `excResp` one raised after
the commit while producing the response; both are caught by
`except Exception`, which renders `error.html` with `str(e)` and the
default status 200. On success the handler returns
`RedirectResponse(url="/", status_code=303)`. -/
def create_itemRun (s : DBState) (name : String) (excWrite excResp : Option Exc) :
    DBState × RunResult :=
  match excWrite with
  | some e => (s, .response (.template "error.html" (.error e.str) 200))
  | none =>
    match excResp with
    | some e => ((insertItem s name).1, .response (.template "error.html" (.error e.str) 200))
    | none => ((insertItem s name).1, .response (.redirect "/" 303))

/-- `create_item` on the success path. -/
def create_item (s : DBState) (name : String) : DBState × RunResult :=
  create_itemRun s name none none

/-- Handler of `GET /items/{item_id}` (`read_item`, main.py lines 93-108).
A missing row renders `error.html` "Item not found" with 404; a found row
renders `item_detail.html` with 200; a raised `SQLAlchemyError` or other
`Exception` (from the query, `excQuery`, or from rendering the detail
page, `excRender`) is caught and mapped to a 500 error page. -/
def read_itemRun (s : DBState) (i : Nat) (excQuery excRender : Option Exc) : RunResult :=
  match excQuery with
  | some e => .response (dbErrorResponse e)
  | none =>
    match queryFirst s i with
    | none => .response (.template "error.html" (.error "Item not found") 404)
    | some it =>
      match excRender with
      | some e => .response (dbErrorResponse e)
      | none => .response (.template "item_detail.html" (.item it) 200)

/-- `read_item` on the success path. -/
def read_item (s : DBState) (i : Nat) : RunResult :=
  read_itemRun s i none none

/-- Handler of `POST /items/{item_id}/delete` (`delete_item`, main.py
lines 110-125). A missing row renders `error.html` "Item not found" with
404 and leaves the table untouched; otherwise the row is deleted and
committed and the handler redirects to `/` with 303. `excQuery` and
`excCommit` inject a failure of the lookup and of the delete/commit
respectively; both are caught and mapped to a 500 error page, the failed
transaction leaving the table unchanged. -/
def delete_itemRun (s : DBState) (i : Nat) (excQuery excCommit : Option Exc) :
    DBState × RunResult :=
  match excQuery with
  | some e => (s, .response (dbErrorResponse e))
  | none =>
    match queryFirst s i with
    | none => (s, .response (.template "error.html" (.error "Item not found") 404))
    | some it =>
      match excCommit with
      | some e => (s, .response (dbErrorResponse e))
      | none => (deleteRow s it, .response (.redirect "/" 303))

/-- `delete_item` on the success path. -/
def delete_item (s : DBState) (i : Nat) : DBState × RunResult :=
  delete_itemRun s i none none

/-- Process environment as the bootstrap reads it: the value of the
`DATABASE_URL` variable, `none` when unset. -/
structure Env where
  databaseUrl : Option String
deriving DecidableEq, Repr

/-- Lines 19-23 of main.py: `os.getenv("DATABASE_URL", "sqlite:///./test.db")`
followed by the legacy-scheme normalization
`DATABASE_URL.replace("postgres://", "postgresql://", 1)`, applied only
when the URL starts with `postgres://` (so the single replaced occurrence
is exactly the prefix). Python `str.startswith` is modelled on the
character sequence of the string. This is the module-level variable
`DATABASE_URL`. -/
def moduleDATABASE_URL (env : Env) : String :=
  let url := env.databaseUrl.getD "sqlite:///./test.db"
  if "postgres://".data.isPrefixOf url.data then
    "postgresql://" ++ url.drop "postgres://".length
  else url

/-- Lines 31-35 of main.py: `SQLALCHEMY_DATABASE_URL = os.getenv("DATABASE_URL")`
(no default, and NOT the normalized module variable), then
`if not SQLALCHEMY_DATABASE_URL: raise ValueError(...)`, then
`engine = create_engine(SQLALCHEMY_DATABASE_URL)`. Python `not` is true
for both `None` and the empty string. Returns the connection string the
engine is created from, or the raised error. -/
def bootstrapEngineUrl (env : Env) : Except String String :=
  match env.databaseUrl with
  | none => .error "DATABASE_URL environment variable is not set"
  | some u =>
    if u = "" then .error "DATABASE_URL environment variable is not set"
    else .ok u

/-- The application object after a completed bootstrap: the engine
connection string and the fact that `app.add_middleware(HTTPSRedirectMiddleware)`
(main.py line 54) ran unconditionally. -/
structure App where
  engineUrl : String
  httpsRedirect : Bool
deriving DecidableEq, Repr

/-- Module evaluation order of main.py: the configuration check (lines
31-33) runs before `create_engine` (line 35), before `app = FastAPI()`
(line 51) and before `uvicorn.run` (line 129); a raise therefore stops
the process before any HTTP listener exists. On success the app is built
with the HTTPS-redirect middleware installed unconditionally. -/
def bootstrapApp (env : Env) : Except String App :=
  match bootstrapEngineUrl env with
  | .error m => .error m
  | .ok u => .ok ⟨u, true⟩

/-! ## Helper lemmas about the row-lookup primitive -/

/-- A lookup over rows none of which carries the id finds nothing. -/
lemma queryFirst_eq_none {s : DBState} {i : Nat} (h : ∀ x ∈ s.items, x.id ≠ i) :
    queryFirst s i = none :=
  List.find?_eq_none.mpr fun x hx => by simpa using h x hx

/-- Under the primary-key constraint (no two rows share an id), the lookup
finds exactly the persisted row with the requested id. -/
lemma queryFirst_eq_some {l : List Item} {i : Nat} {it : Item}
    (hnd : (l.map Item.id).Nodup) (hmem : it ∈ l) (hid : it.id = i) :
    l.find? (fun x => x.id == i) = some it := by
  induction l with
  | nil => cases hmem
  | cons a t ih =>
    rw [List.map_cons, List.nodup_cons] at hnd
    rcases List.mem_cons.mp hmem with rfl | hmem'
    · exact List.find?_cons_of_pos _ (by simp [hid])
    · have hai : a.id ≠ i := by
        intro he
        exact hnd.1 (by rw [he, ← hid]; exact List.mem_map.mpr ⟨it, hmem', rfl⟩)
      rw [List.find?_cons_of_neg _ (by simp [hai])]
      exact ih hnd.2 hmem'

/-- A lookup succeeds as soon as some persisted row carries the id, and the
found row carries that id. -/
lemma queryFirst_exists {s : DBState} {i : Nat} {it : Item}
    (hmem : it ∈ s.items) (hid : it.id = i) :
    ∃ it0, queryFirst s i = some it0 ∧ it0.id = i := by
  cases h : queryFirst s i with
  | none =>
    exact absurd hid (by simpa using List.find?_eq_none.mp h it hmem)
  | some it0 =>
    exact ⟨it0, rfl, by simpa using List.find?_some h⟩

/-! ## Claim theorems -/

/-- Claim C1, as stated, is false at a concrete failing database
operation: with a raised `SQLAlchemyError`, `root` and `create_item`
render the error template with the default status 200, not 500. -/
theorem c1_default_200_counterexample :
    RunResult.statusOf (rootRun ⟨[], 1⟩ (some (Exc.sqlalchemy "connection failed")) none)
      = some 200 ∧
    RunResult.statusOf
      ((create_itemRun ⟨[], 1⟩ "Widget" (some (Exc.sqlalchemy "connection failed")) none).2)
      = some 200 ∧
    RunResult.statusOf (rootRun ⟨[], 1⟩ (some (Exc.sqlalchemy "connection failed")) none)
      ≠ some 500 ∧
    RunResult.statusOf
      ((create_itemRun ⟨[], 1⟩ "Widget" (some (Exc.sqlalchemy "connection failed")) none).2)
      ≠ some 500 := by
  decide

/-- Claim C1 amended: on a storage failure during the list operation of
`GET /` and during the create operation of `POST /items/`, the handler
renders the error template with the exception message, but the HTTP
response carries the default status code 200, not 500, for every state
and every failing database operation. -/
theorem c1_storage_failure_renders_error_with_200 (s : DBState) (name : String) (e : Exc) :
    rootRun s (some e) none
      = .response (.template "error.html" (.error e.str) 200) ∧
    (create_itemRun s name (some e) none).2
      = .response (.template "error.html" (.error e.str) 200) :=
  ⟨rfl, rfl⟩

/-- Claim C2: the normalized connection string is computed into the
module variable `DATABASE_URL` (line 23), but the engine is created from
a fresh, un-normalized `os.getenv("DATABASE_URL")` (lines 31, 35). At
`DATABASE_URL=postgres://host/db` the module variable holds the
normalized `postgresql://host/db` while the engine receives the raw
`postgres://host/db`: the code drops the normalization it just
computed. -/
theorem c2_engine_ignores_normalization :
    moduleDATABASE_URL ⟨some "postgres://host/db"⟩ = "postgresql://host/db" ∧
    bootstrapEngineUrl ⟨some "postgres://host/db"⟩ = Except.ok "postgres://host/db" ∧
    moduleDATABASE_URL ⟨some "postgres://host/db"⟩ ≠ "postgres://host/db" := by
  refine ⟨by decide, rfl, by decide⟩

/-- Claim C3, as stated, is false at `DATABASE_URL=""`: the variable is
present in the environment, yet bootstrap raises the `ValueError` instead
of proceeding past the configuration check, because Python `not` is true
on the empty string. -/
theorem c3_present_empty_counterexample :
    (Env.mk (some "")).databaseUrl.isSome = true ∧
    bootstrapApp ⟨some ""⟩
      = Except.error "DATABASE_URL environment variable is not set" := by
  exact ⟨rfl, rfl⟩

/-- Claim C3 amended: if `DATABASE_URL` is absent at startup the process
raises a `ValueError` during bootstrap, before the engine, the app and
the HTTP listener exist; if it is present with a non-empty value,
bootstrap proceeds past the configuration check and builds the app on
that connection string. -/
theorem c3_fails_fast_when_unset (env : Env) :
    (env.databaseUrl = none →
      bootstrapApp env = Except.error "DATABASE_URL environment variable is not set") ∧
    (∀ u, env.databaseUrl = some u → u ≠ "" →
      bootstrapApp env = Except.ok ⟨u, true⟩) := by
  obtain ⟨d⟩ := env
  constructor
  · rintro rfl
    rfl
  · rintro u rfl hu
    simp [bootstrapApp, bootstrapEngineUrl, hu]

/-- Witness for the amended claim C3 at two concrete environments: unset,
and set to the non-empty default connection string. -/
theorem c3_fails_fast_when_unset_witness :
    bootstrapApp ⟨none⟩
      = Except.error "DATABASE_URL environment variable is not set" ∧
    bootstrapApp ⟨some "sqlite:///./test.db"⟩
      = Except.ok ⟨"sqlite:///./test.db", true⟩ :=
  ⟨(c3_fails_fast_when_unset ⟨none⟩).1 rfl,
   (c3_fails_fast_when_unset ⟨some "sqlite:///./test.db"⟩).2 _ rfl (by decide)⟩

/-- Claim C4: `GET /items/{id}` on an id with no persisted row responds
404 rendering the error template with the "Item not found" indication;
on an id carried by a persisted row (unique, by the primary-key
constraint on the mapped ids) it responds 200 rendering `item_detail`
with that row. -/
theorem c4_read_item_found_and_not_found (s : DBState) (i : Nat) :
    ((∀ x ∈ s.items, x.id ≠ i) →
      read_item s i = .response (.template "error.html" (.error "Item not found") 404)) ∧
    (∀ it : Item, (s.items.map Item.id).Nodup → it ∈ s.items → it.id = i →
      read_item s i = .response (.template "item_detail.html" (.item it) 200)) := by
  constructor
  · intro h
    unfold read_item read_itemRun
    rw [queryFirst_eq_none h]
  · intro it hnd hmem hid
    unfold read_item read_itemRun queryFirst
    rw [queryFirst_eq_some hnd hmem hid]

/-- Witness for C4: in a table holding rows 1 ↦ "A" and 2 ↦ "B", id 9999
yields the 404 error page and id 2 yields the detail page of row 2. -/
theorem c4_read_item_witness :
    read_item ⟨[⟨1, "A"⟩, ⟨2, "B"⟩], 3⟩ 9999
      = .response (.template "error.html" (.error "Item not found") 404) ∧
    read_item ⟨[⟨1, "A"⟩, ⟨2, "B"⟩], 3⟩ 2
      = .response (.template "item_detail.html" (.item ⟨2, "B"⟩) 200) :=
  ⟨(c4_read_item_found_and_not_found ⟨[⟨1, "A"⟩, ⟨2, "B"⟩], 3⟩ 9999).1 (by decide),
   (c4_read_item_found_and_not_found ⟨[⟨1, "A"⟩, ⟨2, "B"⟩], 3⟩ 2).2 ⟨2, "B"⟩
     (by decide) (by decide) rfl⟩

/-- Claim C5: when every persisted row has an id below the autoincrement
counter (the storage invariant), `Create(name)` persists a new row whose
id is the system-assigned counter value, and the subsequent by-id lookup
on the returned id yields a row whose name is exactly `name`. -/
theorem c5_create_then_get_yields_name (s : DBState) (name : String)
    (hfresh : ∀ x ∈ s.items, x.id < s.nextId) :
    ((insertItem s name).2).name = name ∧
    ((insertItem s name).2).id = s.nextId ∧
    (insertItem s name).2 ∈ ((insertItem s name).1).items ∧
    queryFirst (insertItem s name).1 ((insertItem s name).2).id
      = some (insertItem s name).2 := by
  refine ⟨rfl, rfl, by simp [insertItem], ?_⟩
  unfold insertItem queryFirst
  rw [List.find?_append]
  have h1 : s.items.find? (fun x => x.id == s.nextId) = none :=
    List.find?_eq_none.mpr fun x hx => by simpa using Nat.ne_of_lt (hfresh x hx)
  rw [h1, Option.none_or, List.find?_cons_of_pos _ (by simp)]

/-- Witness for C5 at a one-row table: creating "Widget" persists it with
the fresh id 2, and the lookup on 2 returns exactly that row. -/
theorem c5_create_then_get_witness :
    ((insertItem ⟨[⟨1, "A"⟩], 2⟩ "Widget").2).name = "Widget" ∧
    ((insertItem ⟨[⟨1, "A"⟩], 2⟩ "Widget").2).id = 2 ∧
    (insertItem ⟨[⟨1, "A"⟩], 2⟩ "Widget").2
      ∈ ((insertItem ⟨[⟨1, "A"⟩], 2⟩ "Widget").1).items ∧
    queryFirst (insertItem ⟨[⟨1, "A"⟩], 2⟩ "Widget").1
        ((insertItem ⟨[⟨1, "A"⟩], 2⟩ "Widget").2).id
      = some (insertItem ⟨[⟨1, "A"⟩], 2⟩ "Widget").2 :=
  c5_create_then_get_yields_name ⟨[⟨1, "A"⟩], 2⟩ "Widget" (by decide)

/-- Claim C6: deleting the id of a persisted row removes it: the
subsequent by-id lookup returns nothing, the subsequent list of all rows
contains no row with that id and only rows that were already present, and
every other row (any row with a different id) remains present. -/
theorem c6_delete_removes_exactly_that_item (s : DBState) (i : Nat) (it : Item)
    (hmem : it ∈ s.items) (hid : it.id = i) :
    queryFirst (delete_item s i).1 i = none ∧
    (∀ x ∈ queryAll (delete_item s i).1, x.id ≠ i ∧ x ∈ queryAll s) ∧
    (∀ x ∈ queryAll s, x.id ≠ i → x ∈ queryAll (delete_item s i).1) := by
  obtain ⟨it0, h0, hid0⟩ := queryFirst_exists hmem hid
  have h1 : (delete_item s i).1 = deleteRow s it0 := by
    unfold delete_item delete_itemRun
    rw [h0]
  rw [h1]
  refine ⟨?_, ?_, ?_⟩
  · refine queryFirst_eq_none ?_
    intro x hx
    have := (List.mem_filter.mp hx).2
    simp only [bne_iff_ne, ne_eq] at this
    rw [hid0] at this
    exact this
  · intro x hx
    have h2 := List.mem_filter.mp hx
    have h3 : x.id ≠ it0.id := by simpa using h2.2
    exact ⟨by rw [← hid0]; exact h3, h2.1⟩
  · intro x hx hne
    exact List.mem_filter.mpr ⟨hx, by simp [bne_iff_ne]; rw [hid0]; exact hne⟩

/-- Witness for C6: create "A" (id 1), create "B" (id 2), delete id 1:
the lookup on 1 finds nothing and row 2 ↦ "B" is still listed. -/
theorem c6_delete_removes_witness :
    queryFirst (delete_item ⟨[⟨1, "A"⟩, ⟨2, "B"⟩], 3⟩ 1).1 1 = none ∧
    (⟨2, "B"⟩ : Item) ∈ queryAll (delete_item ⟨[⟨1, "A"⟩, ⟨2, "B"⟩], 3⟩ 1).1 :=
  ⟨(c6_delete_removes_exactly_that_item ⟨[⟨1, "A"⟩, ⟨2, "B"⟩], 3⟩ 1 ⟨1, "A"⟩
      (by decide) rfl).1,
   (c6_delete_removes_exactly_that_item ⟨[⟨1, "A"⟩, ⟨2, "B"⟩], 3⟩ 1 ⟨1, "A"⟩
      (by decide) rfl).2.2 ⟨2, "B"⟩ (by decide) (by decide)⟩

/-- Claim C7: deleting an id carried by no persisted row (also an id
whose row was already deleted) returns the 404 "Item not found" error
page, returns normally rather than crashing, and leaves the stored table
(and the whole session state) unchanged. -/
theorem c7_delete_missing_is_404_and_unchanged (s : DBState) (i : Nat)
    (h : ∀ x ∈ s.items, x.id ≠ i) :
    delete_item s i
      = (s, .response (.template "error.html" (.error "Item not found") 404)) := by
  unfold delete_item delete_itemRun
  rw [queryFirst_eq_none h]

/-- Witness for C7 on the second delete of the same id: after deleting
id 1 from the one-row table, deleting 1 again yields the 404 page and the
unchanged state. -/
theorem c7_delete_missing_witness :
    delete_item (delete_item ⟨[⟨1, "A"⟩], 2⟩ 1).1 1
      = ((delete_item ⟨[⟨1, "A"⟩], 2⟩ 1).1,
         .response (.template "error.html" (.error "Item not found") 404)) :=
  c7_delete_missing_is_404_and_unchanged (delete_item ⟨[⟨1, "A"⟩], 2⟩ 1).1 1 (by decide)

/-- Claim C8: every successful create and every successful delete of an
existing id responds with `RedirectResponse(url="/", status_code=303)`. -/
theorem c8_successful_posts_redirect_303 (s : DBState) (name : String) (i : Nat)
    (it : Item) (hmem : it ∈ s.items) (hid : it.id = i) :
    (create_item s name).2 = .response (.redirect "/" 303) ∧
    (delete_item s i).2 = .response (.redirect "/" 303) := by
  obtain ⟨it0, h0, _⟩ := queryFirst_exists hmem hid
  refine ⟨rfl, ?_⟩
  unfold delete_item delete_itemRun
  rw [h0]

/-- Witness for C8: creating "Widget" and deleting the existing id 1 both
answer with the 303 redirect to `/`. -/
theorem c8_successful_posts_redirect_witness :
    (create_item ⟨[⟨1, "A"⟩], 2⟩ "Widget").2 = .response (.redirect "/" 303) ∧
    (delete_item ⟨[⟨1, "A"⟩], 2⟩ 1).2 = .response (.redirect "/" 303) :=
  c8_successful_posts_redirect_303 ⟨[⟨1, "A"⟩], 2⟩ "Widget" 1 ⟨1, "A"⟩ (by decide) rfl

/-! ## Exception totality of the four handlers -/

/-- The `except Exception` clause of `root` (main.py lines 76-78) catches
every exception of the body: no run outcome is an uncaught fault. -/
lemma rootRun_responds (s : DBState) (e1 e2 : Option Exc) :
    ∃ r, rootRun s e1 e2 = .response r := by
  unfold rootRun
  cases e1 with
  | some e => exact ⟨_, rfl⟩
  | none =>
    cases e2 with
    | some e => exact ⟨_, rfl⟩
    | none => exact ⟨_, rfl⟩

/-- The `except Exception` clause of `create_item` (main.py lines 89-91)
catches every exception of the body. -/
lemma create_itemRun_responds (s : DBState) (name : String) (e1 e2 : Option Exc) :
    ∃ r, (create_itemRun s name e1 e2).2 = .response r := by
  unfold create_itemRun
  cases e1 with
  | some e => exact ⟨_, rfl⟩
  | none =>
    cases e2 with
    | some e => exact ⟨_, rfl⟩
    | none => exact ⟨_, rfl⟩

/-- The `except SQLAlchemyError` and `except Exception` clauses of
`read_item` (main.py lines 103-108) together catch every exception of
the body. -/
lemma read_itemRun_responds (s : DBState) (i : Nat) (e1 e2 : Option Exc) :
    ∃ r, read_itemRun s i e1 e2 = .response r := by
  unfold read_itemRun
  cases e1 with
  | some e => exact ⟨_, rfl⟩
  | none =>
    cases queryFirst s i with
    | none => exact ⟨_, rfl⟩
    | some it =>
      cases e2 with
      | some e => exact ⟨_, rfl⟩
      | none => exact ⟨_, rfl⟩

/-- The `except SQLAlchemyError` and `except Exception` clauses of
`delete_item` (main.py lines 120-125) together catch every exception of
the body. -/
lemma delete_itemRun_responds (s : DBState) (i : Nat) (e1 e2 : Option Exc) :
    ∃ r, (delete_itemRun s i e1 e2).2 = .response r := by
  unfold delete_itemRun
  cases e1 with
  | some e => exact ⟨_, rfl⟩
  | none =>
    cases queryFirst s i with
    | none => exact ⟨_, rfl⟩
    | some it =>
      cases e2 with
      | some e => exact ⟨_, rfl⟩
      | none => exact ⟨_, rfl⟩

/-- Claim C9: for every state, every input and every combination of
exceptions raised by a database operation or by rendering the result, no
exception escapes a handler body as an uncaught fault (first four
conjuncts), and every exception that fires is converted into the error
template: `root` and `create_item` render `error.html` with the
exception message (conjuncts five to eight, both for the database
operation and for the rendering of the result); `read_item` and
`delete_item` map it through their except clauses to the 500
`error.html` page (conjuncts nine to twelve; their second fallible
operation — rendering the detail page, resp. the delete/commit — only
runs when the lookup found a row, hence the `queryFirst` premise). -/
theorem c9_no_unhandled_fault (s : DBState) (name : String) (i : Nat) :
    (∀ e1 e2 : Option Exc, ∃ r, rootRun s e1 e2 = .response r) ∧
    (∀ e1 e2 : Option Exc, ∃ r, (create_itemRun s name e1 e2).2 = .response r) ∧
    (∀ e1 e2 : Option Exc, ∃ r, read_itemRun s i e1 e2 = .response r) ∧
    (∀ e1 e2 : Option Exc, ∃ r, (delete_itemRun s i e1 e2).2 = .response r) ∧
    (∀ (e : Exc) (e2 : Option Exc),
      rootRun s (some e) e2 = .response (.template "error.html" (.error e.str) 200)) ∧
    (∀ e : Exc,
      rootRun s none (some e) = .response (.template "error.html" (.error e.str) 200)) ∧
    (∀ (e : Exc) (e2 : Option Exc),
      (create_itemRun s name (some e) e2).2
        = .response (.template "error.html" (.error e.str) 200)) ∧
    (∀ e : Exc,
      (create_itemRun s name none (some e)).2
        = .response (.template "error.html" (.error e.str) 200)) ∧
    (∀ (e : Exc) (e2 : Option Exc),
      read_itemRun s i (some e) e2 = .response (dbErrorResponse e)) ∧
    (∀ (it : Item) (e : Exc), queryFirst s i = some it →
      read_itemRun s i none (some e) = .response (dbErrorResponse e)) ∧
    (∀ (e : Exc) (e2 : Option Exc),
      (delete_itemRun s i (some e) e2).2 = .response (dbErrorResponse e)) ∧
    (∀ (it : Item) (e : Exc), queryFirst s i = some it →
      (delete_itemRun s i none (some e)).2 = .response (dbErrorResponse e)) := by
  refine ⟨rootRun_responds s, create_itemRun_responds s name, read_itemRun_responds s i,
    delete_itemRun_responds s i, fun _ _ => rfl, fun _ => rfl, fun _ _ => rfl,
    fun _ => rfl, fun _ _ => rfl, ?_, fun _ _ => rfl, ?_⟩
  · intro it e h
    unfold read_itemRun
    rw [h]
  · intro it e h
    unfold delete_itemRun
    rw [h]

/-- Witness for C9 at a one-row table: a rendering failure after a
successful lookup in `read_item`, a commit failure in `delete_item` and
a query failure in `root` each yield exactly the corresponding
error-template response. -/
theorem c9_no_unhandled_fault_witness :
    read_itemRun ⟨[⟨1, "A"⟩], 2⟩ 1 none (some (Exc.other "template failure"))
      = .response (dbErrorResponse (Exc.other "template failure")) ∧
    (delete_itemRun ⟨[⟨1, "A"⟩], 2⟩ 1 none (some (Exc.sqlalchemy "commit failure"))).2
      = .response (dbErrorResponse (Exc.sqlalchemy "commit failure")) ∧
    rootRun ⟨[⟨1, "A"⟩], 2⟩ (some (Exc.sqlalchemy "connection failure")) none
      = .response (.template "error.html" (.error "connection failure") 200) :=
  ⟨(c9_no_unhandled_fault ⟨[⟨1, "A"⟩], 2⟩ "Widget" 1).2.2.2.2.2.2.2.2.2.1
     ⟨1, "A"⟩ (Exc.other "template failure") rfl,
   (c9_no_unhandled_fault ⟨[⟨1, "A"⟩], 2⟩ "Widget" 1).2.2.2.2.2.2.2.2.2.2.2
     ⟨1, "A"⟩ (Exc.sqlalchemy "commit failure") rfl,
   (c9_no_unhandled_fault ⟨[⟨1, "A"⟩], 2⟩ "Widget" 1).2.2.2.2.1
     (Exc.sqlalchemy "connection failure") none⟩

/-! ## HTTPS-redirect middleware and routing -/

/-- URL scheme of an incoming request. -/
inductive Scheme where
  | http
  | https
  | ws
  | wss
deriving DecidableEq, Repr

/-- The four application routes of main.py with their parsed inputs. -/
inductive Route where
  | getRoot
  | postItems (name : String)
  | getItem (i : Nat)
  | postDelete (i : Nat)
deriving DecidableEq, Repr

/-- Path of a route, used to rebuild the redirect target URL. -/
def Route.path : Route → String
  | .getRoot => "/"
  | .postItems _ => "/items/"
  | .getItem i => "/items/" ++ toString i
  | .postDelete i => "/items/" ++ toString i ++ "/delete"

/-- An incoming HTTP request: scheme, host and the matched route. -/
structure HttpRequest where
  scheme : Scheme
  host : String
  route : Route
deriving DecidableEq, Repr

/-- Dispatch of the route layer to the four handlers on their success
paths, threading the session state. -/
def handleRoute (s : DBState) : Route → DBState × RunResult
  | .getRoot => (s, root s)
  | .postItems name => create_item s name
  | .getItem i => (s, read_item s i)
  | .postDelete i => delete_item s i

/-- Modelled from the spec: the HTTPS-enforcement step installed by
`app.add_middleware(HTTPSRedirectMiddleware)` (main.py line 54) is
framework code external to this repository (Starlette). Its contract: a
request whose scheme is `http` (resp. `ws`) is answered immediately with
a 307 redirect to the same URL under `https` (resp. `wss`); any other
request is passed to the wrapped application. The wrapped application is
never invoked on a redirected request, so no handler or database
operation runs for it. -/
def httpsRedirectMiddleware (inner : HttpRequest → DBState → DBState × RunResult)
    (req : HttpRequest) (s : DBState) : DBState × RunResult :=
  match req.scheme with
  | .http => (s, .response (.redirect ("https://" ++ req.host ++ req.route.path) 307))
  | .ws => (s, .response (.redirect ("wss://" ++ req.host ++ req.route.path) 307))
  | _ => inner req s

/-- The application pipeline after bootstrap: the unconditionally
installed HTTPS-redirect middleware wrapping the route dispatch. -/
def appDispatch (req : HttpRequest) (s : DBState) : DBState × RunResult :=
  httpsRedirectMiddleware (fun r st => handleRoute st r.route) req s

/-- Claim C10: the HTTPS-redirect middleware being installed
unconditionally, every request arriving over plain HTTP — whatever its
route and whatever the database state — is answered with a redirect to
its HTTPS equivalent, the state is untouched (no database operation ran)
and no route handler was dispatched. -/
theorem c10_http_always_redirected (req : HttpRequest) (s : DBState)
    (h : req.scheme = Scheme.http) :
    appDispatch req s
      = (s, .response (.redirect ("https://" ++ req.host ++ req.route.path) 307)) := by
  obtain ⟨sc, host, route⟩ := req
  subst h
  rfl

/-- Witness for C10: a plain-HTTP request for `GET /` against the empty
table is answered by the HTTPS redirect with the table untouched. -/
theorem c10_http_always_redirected_witness :
    appDispatch ⟨Scheme.http, "example.com", Route.getRoot⟩ ⟨[], 1⟩
      = (⟨[], 1⟩, .response (.redirect "https://example.com/" 307)) :=
  c10_http_always_redirected ⟨Scheme.http, "example.com", Route.getRoot⟩ ⟨[], 1⟩ rfl

end LlmInside
